import Mathlib

/-!
Verification of the tiled super-resolution inference pipeline of
`ISR/predict/predictor.py`.

The source file under scrutiny contains the orchestrating methods
`Predictor._forward_pass` and `Predictor._predict`.  The image-processing
helpers imported at the top of the file live in a module that is not part
of the sources at hand; the two that reachable code calls (`process_array`,
`process_output`) are modelled from the specification (section 4.1) and
marked as such in their doc comments.  Everything else is a direct shallow
embedding of the Python code, with numpy arrays embedded as nested lists.

A decisive feature of the source is that `_predict` is declared
`def _predict(model, input_image_array, ...)` — without a `self`
parameter — while lines 160, 166 and 168 call `self.logger.info(...)`.
Python name resolution (local, enclosing, global, builtin) finds no
binding for `self` there, so every invocation with a truthy
`by_patch_of_size` raises NameError at line 160, before the codec call of
line 161, before the splitter, before any model call and before any
stitch: lines 161-195, the whole split/batch/stitch pipeline, are
unreachable text.  The single-pass branch (lines 197-202) references no
`self` and is embedded in full.  `_forward_pass` does have `self`; its
failure mode is the scalar subscript `lr_img.size[1]` at line 134.

An image array of shape (H, W, C) is embedded as a `List` of H rows, each a
list of W pixels, each a list of C samples.  The embedding of `_predict`
additionally records a trace of the calls it makes (codec, splitter, model,
stitcher) so that claims about which collaborators are ever invoked — and
how often — can be stated.
-/

namespace ISR

/-- A pixel: the list of channel samples. -/
abbrev Pix := List Int

/-- An image array: rows of pixels (shape = (rows, cols, channels)). -/
abbrev Grid := List (List Pix)

/-- Channel count of a grid (numpy `shape[2]`), read off the first pixel. -/
def chansOf (g : Grid) : Nat := ((g.headD []).headD []).length

/-- Apply a sample-wise function to every channel sample of a grid. -/
def mapGrid (f : Int → Int) (g : Grid) : Grid :=
  g.map (fun r => r.map (fun px => px.map f))

/-- Modelled from the spec (section 4.1, `to_model_domain`): the Array Codec
forward map converts display samples to the model's numeric domain without
resizing.  The numeric range change is represented at integer precision as
the identity embedding of display samples. -/
def to_model_domain : Int → Int := fun x => x

/-- Modelled from the spec (section 4.1, `from_model_domain`): the inverse
codec map clips values to the valid display range (0..255) and casts to the
display sample type. -/
def from_model_domain : Int → Int := fun x => min 255 (max 0 x)

/-- Modelled from the spec: `process_array(x)` with the default
`expand=True`, as called on the single-pass path — codec forward applied
sample-wise, then the image is wrapped into a batch of one. -/
def process_array_batch (g : Grid) : List Grid := [mapGrid to_model_domain g]

/-- Modelled from the spec: `process_output` — the Array Codec reverse map,
applied sample-wise (clip to display range, cast). -/
def process_output (g : Grid) : Grid := mapGrid from_model_domain g

/-- The external model collaborator: a declared integer scale factor and a
batch prediction call that may fail (spec section 6). -/
structure Model where
  scale : Nat
  predict : List Grid → Except String (List Grid)

/-- Python exceptions and logged-error outcomes reachable from the embedded
code, together with the error kinds named by the specification (section 7)
so that claims about them can be stated.  Of the specification's kinds,
none is ever constructed by the code. -/
inductive PErr where
  | typeError
  | nameError
  | valueError
  | indexError
  | modelRaised (e : String)
  | invalidChannelCount
  | invalidPatchSize
  | modelInferenceError (lo hi : Nat)
deriving DecidableEq, Repr

instance {ε α : Type} [DecidableEq ε] [DecidableEq α] : DecidableEq (Except ε α) :=
  fun x y =>
    match x, y with
    | Except.error a, Except.error b =>
      if h : a = b then isTrue (by rw [h])
      else isFalse (by intro hc; cases hc; exact h rfl)
    | Except.ok a, Except.ok b =>
      if h : a = b then isTrue (by rw [h])
      else isFalse (by intro hc; cases hc; exact h rfl)
    | Except.error _, Except.ok _ => isFalse (by intro hc; cases hc)
    | Except.ok _, Except.error _ => isFalse (by intro hc; cases hc)

/-- Trace events recorded by the instrumented embedding: codec forward,
splitter call, model call on `size` patches starting at patch index `i`,
stitcher call on `k` predictions, codec reverse.  The splitter and stitcher
events exist so that claims about those collaborators can be stated; the
reachable code never emits them (the tiled branch raises first). -/
inductive Ev where
  | encode
  | splitCall
  | modelCall (i size : Nat)
  | stitchCall (k : Nat)
  | decode
deriving DecidableEq, Repr

/-- Shallow embedding of the batch loop of `_predict` (source lines
167-185), taken on its own over a patch collection.  `range(0,
len(patches), batch_size)` raises a ValueError when `batch_size` is 0.
Otherwise, if there is at least one patch the body runs, and its first
statement (line 168) calls `self.logger.info` — `self` is unbound in
`_predict`, so the first iteration raises NameError before the
`model.predict` call of line 169, and nothing is ever collected.  With no
patches the body never runs and the loop completes with nothing
collected. -/
def batchLoop (M : Model) (batch_size : Nat) (patches : List Grid) :
    Except PErr (List Grid) × List Ev :=
  if batch_size = 0 then (Except.error PErr.valueError, [])
  else
    match patches with
    | [] => (Except.ok [], [])
    | _ :: _ => (Except.error PErr.nameError, [])

/-- Shallow embedding of `Predictor._predict` (source lines 142-202), with
its call trace.  `by_patch_of_size` is tested by Python truthiness at line
159, so both `none` and `some 0` select the single-pass path.  A truthy
patch size selects the tiled branch, whose first statement (line 160) is
`self.logger.info(...)`: `_predict` has no `self` parameter and no other
binding of `self` is in scope, so the branch raises NameError at once —
before the codec call of line 161, the splitter call of line 162, the
batch loop of lines 167-185 and the stitches of lines 178 and 190, all of
which are unreachable.  The single-pass branch, lines 197-202, references
no `self`: the whole image goes through the codec forward map as a batch
of one, one `model.predict` call is made, element `[0]` of the output
batch is taken (an empty batch would make that subscript an IndexError)
and the codec reverse map of line 201 is applied to it. -/
def predictT (M : Model) (input_image_array : Grid) (by_patch_of_size : Option Nat)
    (batch_size : Nat) (padding_size : Nat) : Except PErr Grid × List Ev :=
  if by_patch_of_size.getD 0 ≠ 0 then
    (Except.error PErr.nameError, [])
  else
    let lr_img := process_array_batch input_image_array
    match M.predict lr_img with
    | Except.error e =>
      (Except.error (PErr.modelRaised e), [Ev.encode, Ev.modelCall 0 1])
    | Except.ok outs =>
      match outs with
      | [] => (Except.error PErr.indexError, [Ev.encode, Ev.modelCall 0 1])
      | o :: _ =>
        (Except.ok (process_output o), [Ev.encode, Ev.modelCall 0 1, Ev.decode])

/-- Shallow embedding of `Predictor._forward_pass` (source lines 131-141) on
an already decoded image array.  `_forward_pass` does have `self`.  If the
channel axis has length 3 the source evaluates `lr_img.size[1]`;
`ndarray.size` is a scalar, so subscripting it raises a TypeError before
either branch of the inner dispatch can run.  Any other channel count is
logged as an error and the method returns None without raising. -/
def forward_pass (lr_img : Grid) : Except PErr (Option Grid) × List Ev :=
  if chansOf lr_img = 3 then (Except.error PErr.typeError, [])
  else (Except.ok none, [])

/-! ### Concrete models and images used to exercise the pipeline -/

/-- The identity model: scale 1, every patch predicted as itself. -/
def modelId : Model := ⟨1, fun l => Except.ok (l.map (fun x => x))⟩

/-- A model whose predict call raises on every batch. -/
def modelBoom : Model := ⟨2, fun _ => Except.error "boom"⟩

/-- A 1×1×3 image. -/
def imgOne : Grid := [[[0, 0, 0]]]

/-- A 2×2×3 image. -/
def imgTwo : Grid := [[[1, 1, 1], [2, 2, 2]], [[3, 3, 3], [4, 4, 4]]]

/-- A 1×1×4 image: four channels, invalid for the pipeline. -/
def img4ch : Grid := [[[0, 0, 0, 0]]]

/-! ### The claims -/

/-- C1 fails as a code bug: `_predict` has no `self` parameter, yet line
160 — the first statement of the tiled branch — calls `self.logger.info`,
so every request with a nonzero patch size raises NameError before the
codec, the splitter, the model or the stitcher can run.  No array of any
shape is ever returned on the tiled path, for any model, image, batch size
or padding size. -/
theorem C1_tiled_raises (M : Model) (g : Grid) (bs pad : Nat) {P : Nat}
    (hP : P ≠ 0) :
    predictT M g (some P) bs pad = (Except.error PErr.nameError, []) := by
  simp [predictT, hP]

/-- Witness for C1's failing input: patch size 1 on the 1×1×3 image. -/
theorem C1_witness :
    predictT modelId imgOne (some 1) 1 2 = (Except.error PErr.nameError, []) :=
  C1_tiled_raises modelId imgOne 1 2 (by decide)

/-- Counterexample to C2 as stated: on a 1×1×4 input `_forward_pass` does
not raise `InvalidChannelCount` (nor anything else) — it returns None. -/
theorem C2_counterexample :
    forward_pass img4ch = (Except.ok none, []) ∧
    (forward_pass img4ch).1 ≠ Except.error PErr.invalidChannelCount := by decide

/-- C2 amended: an input whose channel axis is not of length 3 is rejected
before any processing — the trace is empty, so no patch is created and no
model call is made — but no exception is raised: `_forward_pass` logs the
failure and returns None to its caller. -/
theorem C2_amended_rejected_without_raising (g : Grid) (h : chansOf g ≠ 3) :
    forward_pass g = (Except.ok none, []) := by
  simp [forward_pass, h]

/-- Witness for the amended C2 at the 1×1×4 image. -/
theorem C2_witness : chansOf img4ch ≠ 3 ∧ forward_pass img4ch = (Except.ok none, []) :=
  ⟨by decide, C2_amended_rejected_without_raising img4ch (by decide)⟩

/-- C3 fails as a code bug: for every 3-channel image, `_forward_pass`
evaluates `lr_img.size[1]`; numpy's `ndarray.size` is a scalar, so the
subscript raises a TypeError before the size threshold can be compared and
before either dispatch branch (which would also hit the undefined name
`model`) can run.  No tiled-versus-single dispatch ever happens. -/
theorem C3_dispatch_never_runs (g : Grid) (h : chansOf g = 3) :
    forward_pass g = (Except.error PErr.typeError, []) := by
  simp [forward_pass, h]

/-- Witness for C3's failing input: the 1×1×3 image (its longer axis is 1,
far below the 1024 threshold, yet no single-pass run happens). -/
theorem C3_witness : chansOf imgOne = 3 ∧
    forward_pass imgOne = (Except.error PErr.typeError, []) :=
  ⟨by decide, C3_dispatch_never_runs imgOne (by decide)⟩

/-- C4 fails as a code bug: the batch loop's body opens, at line 168, with
a `self.logger.info` call, and `self` is unbound in `_predict` — so for
every nonempty patch collection and every positive batch size the first
iteration raises NameError before the first `model.predict` call at line
169.  No prediction is ever produced, let alone concatenated in order. -/
theorem C4_loop_raises_before_model (M : Model) (bs : Nat) (patches : List Grid)
    (hbs : 1 ≤ bs) (hne : patches ≠ []) :
    batchLoop M bs patches = (Except.error PErr.nameError, []) := by
  have hbs0 : ¬ (bs = 0) := by omega
  cases patches with
  | nil => exact absurd rfl hne
  | cons p ps => simp [batchLoop, hbs0]

/-- Witness for C4's failing input: three patches, batch size 2. -/
theorem C4_witness :
    batchLoop modelId 2 [imgOne, imgTwo, imgOne] = (Except.error PErr.nameError, []) :=
  C4_loop_raises_before_model modelId 2 [imgOne, imgTwo, imgOne] (by decide) (by decide)

/-- C5 fails as a code bug: in the tiled run below (2×2×3 image, patch size
1, batch size 2, identity model) the stitcher is never invoked at all — the
run raises NameError at line 160, before the batch loop, so the stitch
calls at lines 178 and 190 are unreachable and zero stitches happen, not
the exactly-one the claim requires. -/
theorem C5_stitch_never_runs :
    predictT modelId imgTwo (some 1) 2 0 = (Except.error PErr.nameError, []) ∧
    ((predictT modelId imgTwo (some 1) 2 0).2.filter
        (fun ev => match ev with | Ev.stitchCall _ => true | _ => false)).length = 0 := by
  decide

/-- C6 counterexample as stated: requesting tiling with `patch_size = 0`
does not raise `InvalidPatchSize`; the run succeeds on the single-pass
path, exactly as if the patch size were unset. -/
theorem C6_counterexample :
    (predictT modelId imgOne (some 0) 10 2).1 ≠ Except.error PErr.invalidPatchSize ∧
    predictT modelId imgOne (some 0) 10 2 = predictT modelId imgOne none 10 2 := by
  decide

/-- C6 amended: a patch size of 0 is falsy under the source's truthiness
test, so the tiled path is not entered and no error is raised — the code
defines no `InvalidPatchSize` — and the call behaves exactly as an unset
patch size. -/
theorem C6_amended_zero_behaves_as_unset (M : Model) (g : Grid) (bs pad : Nat) :
    predictT M g (some 0) bs pad = predictT M g none bs pad := rfl

/-- C7 fails as a code bug: even with a model whose predict call raises on
every batch, a tiled run raises NameError at line 160 before reaching any
`model.predict` call — the empty trace shows the model is never invoked,
so no model error can arise, let alone surface as a `ModelInferenceError`
carrying a group index range (no such type exists in the code). -/
theorem C7_model_never_called :
    predictT modelBoom imgTwo (some 1) 2 0 = (Except.error PErr.nameError, []) ∧
    (predictT modelBoom imgTwo (some 1) 2 0).1 ≠
      Except.error (PErr.modelRaised "boom") := by
  decide

/-- C8.  With the patch size unset, `_predict` performs exactly one model
call, on the whole codec-converted image as a batch of one, and applies the
codec reverse map to the model output; the trace shows no splitter and no
stitcher invocation. -/
theorem C8_single_pass_once (M : Model) (f : Grid → Grid) (g : Grid) (bs pad : Nat)
    (hM : M.predict = fun l => Except.ok (l.map f)) :
    predictT M g none bs pad =
      (Except.ok (process_output (f (mapGrid to_model_domain g))),
        [Ev.encode, Ev.modelCall 0 1, Ev.decode]) := by
  simp [predictT, hM, process_array_batch]

/-- Witness for C8: the identity model on the 2×2×3 image. -/
theorem C8_witness : predictT modelId imgTwo none 10 2 =
    (Except.ok (process_output (mapGrid to_model_domain imgTwo)),
      [Ev.encode, Ev.modelCall 0 1, Ev.decode]) :=
  C8_single_pass_once modelId (fun x => x) imgTwo 10 2 rfl

/-- C9 fails as a code bug: `_predict` never returns an array on any tiled
run — the value component is always the NameError raised at line 160 —
so there exists no returned tiled result to compare with a stitch-once
variant; the in-loop stitches the claim says are discarded are unreachable
text. -/
theorem C9_tiled_never_returns (M : Model) (g : Grid) (bs pad : Nat) {P : Nat}
    (hP : P ≠ 0) :
    (predictT M g (some P) bs pad).1 = Except.error PErr.nameError := by
  simp [predictT, hP]

/-- Witness for C9's failing input: the identity model on the 2×2×3 image,
patch size 1, batch size 2. -/
theorem C9_witness :
    (predictT modelId imgTwo (some 1) 2 0).1 = Except.error PErr.nameError :=
  C9_tiled_never_returns modelId imgTwo 2 0 (by decide)

/-- C10.  On the single-pass path (`by_patch_of_size` unset) the result of
`_predict` — value and call trace alike — does not depend on the
`batch_size` and `padding_size` arguments: the single-pass branch never
reads them. -/
theorem C10_single_pass_independent (M : Model) (g : Grid) (b1 p1 b2 p2 : Nat) :
    predictT M g none b1 p1 = predictT M g none b2 p2 := rfl

end ISR
